import Mathlib

/-!
Shallow embedding of the core transfer engine of the neverpay2spotify
repository (files `neverpay2spotify.py` and `api/index.py`).

The external service clients (spotipy and ytmusicapi) are modelled as an
`Env` of fallible operations; a Python exception raised by a client call is
modelled as the `Except.error` branch carrying the exception's message
(`str(e)`), which the code's `try`/`except` blocks turn into result values.
The functions additionally return the ordered list of client calls they
made (an event trace), so that ordering and call-count claims can be
stated.
-/

namespace NeverPay

/-! Section: Identifier extraction (`extract_playlist_id_from_url`)

Python:
```
if 'spotify.com/playlist/' in spotify_url:
    match = re.search(r'playlist/([a-zA-Z0-9]+)', spotify_url)
    if match:
        return match.group(1)
return None
```
The regex is the literal `playlist/` followed by a capture of one or more
ASCII alphanumerics; `re.search` returns the leftmost match, and the `+`
is greedy, so the capture is the maximal alphanumeric run after the
leftmost occurrence of `playlist/` that is followed by at least one
alphanumeric character.  We embed strings as `List Char`.
-/

/-- ASCII-alphanumeric test, the character class `[a-zA-Z0-9]`. -/
def isAlnumC (c : Char) : Bool :=
  (('a' ≤ c && c ≤ 'z') || ('A' ≤ c && c ≤ 'Z') || ('0' ≤ c && c ≤ '9'))

/-- The containment marker `'spotify.com/playlist/'` checked with `in`. -/
def markerFull : List Char := "spotify.com/playlist/".data

/-- The literal part `playlist/` of the regex pattern. -/
def markerPat : List Char := "playlist/".data

/-- Python's substring containment `needle in hay`. -/
def containsSub (hay needle : List Char) : Bool :=
  match hay with
  | [] => needle.isEmpty
  | _ :: t => needle.isPrefixOf hay || containsSub t needle

/-- Maximal leading run of ASCII alphanumerics (the greedy `[a-zA-Z0-9]+`). -/
def takeAlnum : List Char → List Char
  | [] => []
  | c :: t => if isAlnumC c then c :: takeAlnum t else []

/-- Leftmost match of `re.search(r'playlist/([a-zA-Z0-9]+)', s)`: scan
positions left to right; at the first position where the literal
`playlist/` occurs followed by at least one alphanumeric, capture the
maximal alphanumeric run. -/
def reSearchPlaylist : List Char → Option (List Char)
  | [] => none
  | c :: t =>
    if markerPat.isPrefixOf (c :: t) then
      match takeAlnum ((c :: t).drop markerPat.length) with
      | [] => reSearchPlaylist t
      | d :: cap => some (d :: cap)
    else reSearchPlaylist t

/-- Definition of `extract_playlist_id_from_url`, identical in both copies (the two copies of this
function are textually identical). -/
def extract_playlist_id_from_url (spotify_url : String) : Option String :=
  if containsSub spotify_url.data markerFull then
    match reSearchPlaylist spotify_url.data with
    | some cap => some (String.mk cap)
    | none => none
  else none

/-- Spec-side test: the regex pattern can match starting at position `j` of
`s`, i.e. the literal `playlist/` occurs at `j` and is followed by at least
one ASCII alphanumeric character. -/
def matchBeginsB (s : List Char) (j : Nat) : Bool :=
  markerPat.isPrefixOf (s.drop j) &&
    (match (s.drop j).drop markerPat.length with
     | [] => false
     | d :: _ => isAlnumC d)

/-! Section: Data model -/

/-- One credited artist of a source track (`artist['name']`). -/
structure Artist where
  name : String
deriving DecidableEq, Repr

/-- The payload of a present playlist slot (`track['track']` when truthy):
title and credited artists in order. -/
structure TrackInfo where
  name : String
  artists : List Artist
deriving DecidableEq, Repr

/-- One raw playlist item (`results['items'][k]`); `track = none` models a
falsy `track['track']` (removed/local track: an absent slot). -/
structure TrackEntry where
  track : Option TrackInfo
deriving DecidableEq, Repr

/-- One destination-catalog search result; `videoId = none` models a result
dict lacking the `'videoId'` key (`results[0].get('videoId')` is `None`). -/
structure SearchResult where
  videoId : Option String
deriving DecidableEq, Repr

/-- One page returned by `sp.playlist_tracks`: the `'items'` list and the
truthiness of the `'next'` cursor. -/
structure Page where
  items : List TrackEntry
  next : Bool
deriving DecidableEq, Repr

/-- Playlist metadata returned by `sp.playlist(playlist_id)`. -/
structure PlaylistMeta where
  name : String
deriving DecidableEq, Repr

/-- A failed-track record `{'name': ..., 'artists': ...}`. -/
structure FailedTrack where
  name : String
  artists : List String
deriving DecidableEq, Repr

/-- The behaviour of the two external service clients for one transfer
call.  Every operation may fail (`Except.error msg` models a raised
exception with message `str(e) = msg`). -/
structure Env where
  /-- Construction `YTMusic(ytmusic_headers)`. -/
  initYTM : Except String Unit
  /-- Construction `spotipy.Spotify(...)` (explicit or env credentials). -/
  initSpotify : Except String Unit
  /-- Call `sp.playlist(playlist_id)`. -/
  playlist : String → Except String PlaylistMeta
  /-- Call `sp.playlist_tracks(playlist_id, offset=k)`; the first call omits the
  offset, which defaults to `0`. -/
  playlist_tracks : String → Nat → Except String Page
  /-- Call `ytm.search(query, filter="songs", limit=5)`. -/
  search : String → Except String (List SearchResult)
  /-- Call `ytm.create_playlist(title, description, privacy_status="PRIVATE")`,
  returning the new playlist id. -/
  create_playlist : String → String → Except String String
  /-- Call `ytm.add_playlist_items(playlist_id, video_ids)`. -/
  add_playlist_items : String → List String → Except String Unit

/-- The ordered trace of client calls made during one transfer. -/
inductive Event where
  | initYTM : Event
  | initSpotify : Event
  | getPlaylist (id : String) : Event
  | getTracks (id : String) (offset : Nat) : Event
  | createPlaylist (title description : String) : Event
  | search (query : String) : Event
  | addItems (playlistId : String) (ids : List String) : Event
deriving DecidableEq, Repr

/-- Whether an event is the destination-playlist creation call. -/
def Event.isCreate : Event → Bool
  | .createPlaylist _ _ => true
  | _ => false

/-- Whether an event is the batch add-items call. -/
def Event.isAdd : Event → Bool
  | .addItems _ _ => true
  | _ => false

/-- Whether an event is a destination-catalog search call. -/
def Event.isSearch : Event → Bool
  | .search _ => true
  | _ => false

/-! Section: The Track Matcher (`search_youtube_music`), both copies

`api/index.py`:
```
def search_youtube_music(ytm, query, max_results=5):
    try:
        results = ytm.search(query, filter="songs", limit=max_results)
        if results and len(results) > 0:
            return results[0].get('videoId')
    except Exception as e:
        print(...)
    return None
```
A raised exception is caught and the function returns `None`; an empty
result list falls through to `return None`; otherwise the first result's
`'videoId'` value (possibly `None` if the key is absent) is returned.

`neverpay2spotify.py` has the same body but names its parameter `ytmusic`
while the body reads the name `ytm`, which is bound nowhere in that module
(neither locally nor globally).  Evaluating `ytm.search(...)` therefore
raises `NameError` inside the `try` block before any client call is made;
the handler catches it and the function returns `None`.  So that copy
returns `None` on every input and never contacts the destination catalog.
-/

/-- A matcher: given the environment and a query, the returned id (or
`none`) together with the catalog calls it made. -/
def SearchFn : Type := Env → String → Option String × List Event

/-- Function `search_youtube_music` as in `api/index.py` (working copy). -/
def search_youtube_music (env : Env) (query : String) :
    Option String × List Event :=
  match env.search query with
  | .error _ => (none, [.search query])
  | .ok results =>
    match results with
    | [] => (none, [.search query])
    | r :: _ => (r.videoId, [.search query])

/-- Function `search_youtube_music` as in `neverpay2spotify.py`: the body reads the
undefined name `ytm` (the parameter is `ytmusic`), so the `try` block
raises `NameError` before reaching the client, the handler returns `None`,
and no catalog call is ever made. -/
def search_youtube_music_flask (_env : Env) (_query : String) :
    Option String × List Event :=
  (none, [])

/-! Section: Paginated track fetch (lines 82–88 / 62–68)

```
tracks = []
results = sp.playlist_tracks(playlist_id)
tracks.extend(results['items'])
while results['next']:
    results = sp.playlist_tracks(playlist_id, offset=len(tracks))
    tracks.extend(results['items'])
```
The `while` loop is embedded with fuel (`none` = the loop has not finished
within `fuel` further page requests, i.e. the Python would still be
looping). -/

/-- The `while results['next']` loop: `tracks` is the accumulated list,
`nxt` the current page's cursor flag. -/
def fetchLoop (env : Env) (pid : String) :
    Nat → List TrackEntry → Bool → List Event × Option (Except String (List TrackEntry))
  | _, tracks, false => ([], some (.ok tracks))
  | 0, _, true => ([], none)
  | fuel + 1, tracks, true =>
    match env.playlist_tracks pid tracks.length with
    | .error m => ([.getTracks pid tracks.length], some (.error m))
    | .ok page =>
      let r := fetchLoop env pid fuel (tracks ++ page.items) page.next
      (.getTracks pid tracks.length :: r.1, r.2)

/-- The whole track fetch: the initial `sp.playlist_tracks(playlist_id)`
call (offset defaults to `0`) followed by the `while` loop. -/
def fetch_all_tracks (env : Env) (pid : String) (fuel : Nat) :
    List Event × Option (Except String (List TrackEntry)) :=
  match env.playlist_tracks pid 0 with
  | .error m => ([.getTracks pid 0], some (.error m))
  | .ok page0 =>
    let r := fetchLoop env pid fuel page0.items page0.next
    (.getTracks pid 0 :: r.1, r.2)

/-! Section: The per-track processing loop (lines 98–118 / 78–98) -/

/-- The loop accumulators `transferred_count`, `failed_tracks`,
`video_ids`, plus the trace of search calls made so far. -/
structure LoopSt where
  transferred : Nat
  failed : List FailedTrack
  videoIds : List String
  events : List Event
deriving DecidableEq, Repr

/-- The initial accumulator state (`0`, `[]`, `[]`). -/
def initSt : LoopSt := ⟨0, [], [], []⟩

/-- The query `search_query`, built as the title, a space, and the space-joined artist names. -/
def searchQuery (info : TrackInfo) : String :=
  info.name ++ " " ++ String.intercalate (" ") (info.artists.map Artist.name)

/-- One iteration of the `for track in tracks` loop body. -/
def step (fn : SearchFn) (env : Env) (st : LoopSt) (t : TrackEntry) : LoopSt :=
  match t.track with
  | none => st
  | some info =>
    let r := fn env (searchQuery info)
    match r.1 with
    | some v =>
      ⟨st.transferred + 1, st.failed, st.videoIds ++ [v], st.events ++ r.2⟩
    | none =>
      ⟨st.transferred, st.failed ++ [⟨info.name, info.artists.map Artist.name⟩],
        st.videoIds, st.events ++ r.2⟩

/-- The whole `for track in tracks` loop. -/
def runLoop (fn : SearchFn) (env : Env) (st : LoopSt) : List TrackEntry → LoopSt
  | [] => st
  | t :: ts => runLoop fn env (step fn env st t) ts

/-! Section: The Transfer Orchestrator (`transfer_playlist`, both copies)

The two copies of `transfer_playlist` are textually identical; they differ
only in which `search_youtube_music` the module defines, so the engine is
parameterised by the matcher `fn`.  The whole body is wrapped in
`try: ... except Exception as e: return {"error": str(e)}`, so every raised
client exception becomes an error result carrying the provider message. -/

/-- The result value: the success dict (all fields of the report) or the
error dict `{"error": msg}`. -/
inductive TResult where
  | report (playlist_name : String) (total_tracks : Nat) (transferred_count : Nat)
      (failed_tracks : List FailedTrack) (ytm_playlist_id : String) : TResult
  | error (msg : String) : TResult
deriving DecidableEq, Repr

/-- Function `transfer_playlist(spotify_playlist_url, ...)`; returns the trace of
client calls and the result (`none` = the pagination loop exceeded
`fuel`). -/
def transfer_playlist (fn : SearchFn) (fuel : Nat) (env : Env)
    (spotify_playlist_url : String) : List Event × Option TResult :=
  match env.initYTM with
  | .error m => ([.initYTM], some (.error m))
  | .ok _ =>
  match env.initSpotify with
  | .error m => ([.initYTM, .initSpotify], some (.error m))
  | .ok _ =>
  match extract_playlist_id_from_url spotify_playlist_url with
  | none => ([.initYTM, .initSpotify], some (.error ("Invalid Spotify playlist URL")))
  | some pid =>
  match env.playlist pid with
  | .error m => ([.initYTM, .initSpotify, .getPlaylist pid], some (.error m))
  | .ok meta =>
  let pname := meta.name
  let pdesc := "Transferred from Spotify playlist: " ++ pname
  let pre : List Event := [.initYTM, .initSpotify, .getPlaylist pid]
  match fetch_all_tracks env pid fuel with
  | (fevs, none) => (pre ++ fevs, none)
  | (fevs, some (.error m)) => (pre ++ fevs, some (.error m))
  | (fevs, some (.ok tracks)) =>
  let pre2 := pre ++ fevs ++ [.createPlaylist pname pdesc]
  match env.create_playlist pname pdesc with
  | .error m => (pre2, some (.error m))
  | .ok ytmId =>
  let st := runLoop fn env initSt tracks
  let pre3 := pre2 ++ st.events
  match st.videoIds with
  | [] =>
    (pre3, some (.report pname tracks.length st.transferred st.failed ytmId))
  | v :: vs =>
    match env.add_playlist_items ytmId (v :: vs) with
    | .error m => (pre3 ++ [.addItems ytmId (v :: vs)], some (.error m))
    | .ok _ =>
      (pre3 ++ [.addItems ytmId (v :: vs)],
        some (.report pname tracks.length st.transferred st.failed ytmId))

/-! Section: Spec-side derived notions -/

/-- The matched destination-track ids of a track sequence, in original
source order: for each present track the id the matcher returns (when it
returns one), absent slots and unmatched tracks contributing nothing. -/
def matchedIds (fn : SearchFn) (env : Env) (l : List TrackEntry) : List String :=
  l.filterMap fun t =>
    match t.track with
    | none => none
    | some info => (fn env (searchQuery info)).1

/-- The first `k` pages of a stubbed page sequence, joined: the number of
tracks retrieved before page `k` is its length. -/
def pagesBefore (pages : List (List TrackEntry)) (k : Nat) : List TrackEntry :=
  (pages.take k).flatten

/-! Section: Concrete client behaviours used in witnesses and counterexamples -/

/-- A benign environment: every call succeeds and the catalog is empty. -/
def baseEnv : Env where
  initYTM := .ok ()
  initSpotify := .ok ()
  playlist := fun _ => .ok ⟨""⟩
  playlist_tracks := fun _ _ => .ok ⟨[], false⟩
  search := fun _ => .ok []
  create_playlist := fun _ _ => .ok ""
  add_playlist_items := fun _ _ => .ok ()

/-- A catalog whose search always ranks a result with id `v1` first. -/
def envC1 : Env := { baseEnv with search := fun _ => .ok [⟨some "v1"⟩] }

/-- A locator with no playlist marker at all. -/
def urlC2 : String := "https://example.com/not-a-playlist"

/-- A one-track playlist whose single present track the catalog matches. -/
def envC9 : Env :=
  { baseEnv with
    playlist := fun _ => .ok ⟨"Liked"⟩
    playlist_tracks := fun _ _ => .ok ⟨[⟨some ⟨"Numb", [⟨"Linkin Park"⟩]⟩⟩], false⟩
    search := fun _ => .ok [⟨some "v1"⟩]
    create_playlist := fun _ _ => .ok "PLNEW" }

/-- A valid playlist locator for the concrete scenarios. -/
def urlC9 : String := "https://open.spotify.com/playlist/PL1"

/-- A page of 100 absent-slot items (used by the pagination witness). -/
def pageA : List TrackEntry := List.replicate 100 ⟨none⟩

/-- A page of 37 absent-slot items (used by the pagination witness). -/
def pageB : List TrackEntry := List.replicate 37 ⟨none⟩

/-- The stubbed page sequence of 100, 100 and 37 items. -/
def pages237 : List (List TrackEntry) := [pageA, pageA, pageB]

/-- A source reader stubbed to serve `pages237` at offsets 0, 100 and 200
with next-page cursors true, true and false. -/
def env237 : Env :=
  { baseEnv with
    playlist_tracks := fun _ off =>
      if off = 0 then .ok ⟨pageA, true⟩
      else if off = 100 then .ok ⟨pageA, true⟩
      else if off = 200 then .ok ⟨pageB, false⟩
      else .error "unexpected offset" }

/-- A two-slot playlist, one present track (never matched) and one absent
slot. -/
def envW4 : Env :=
  { baseEnv with
    playlist := fun _ => .ok ⟨"P"⟩
    playlist_tracks := fun _ _ => .ok ⟨[⟨some ⟨"A", []⟩⟩, ⟨none⟩], false⟩ }

/-- A valid playlist locator with id `X1`. -/
def urlW4 : String := "https://open.spotify.com/playlist/X1"

/-- A one-track playlist whose track is matched with id `v1`. -/
def envW6 : Env :=
  { baseEnv with
    playlist := fun _ => .ok ⟨"P"⟩
    playlist_tracks := fun _ _ => .ok ⟨[⟨some ⟨"A", []⟩⟩], false⟩
    search := fun _ => .ok [⟨some "v1"⟩]
    create_playlist := fun _ _ => .ok "Y1" }

/-- A valid playlist locator with id `Z9`. -/
def urlW6 : String := "https://open.spotify.com/playlist/Z9"

/-- The track sequence `envW6` serves. -/
def tracksW6 : List TrackEntry := [⟨some ⟨"A", []⟩⟩]

/-- A destination client whose construction fails. -/
def envW8 : Env := { baseEnv with initYTM := .error "boom" }

/-- A catalog whose search returns one result that lacks an id field. -/
def envW10 : Env := { baseEnv with search := fun _ => .ok [⟨none⟩] }

/-- A present one-track entry used in step-level witnesses. -/
def trackNumb : TrackEntry := ⟨some ⟨"Numb", [⟨"Linkin Park"⟩]⟩⟩

/-! Section: Lemmas about the per-track loop -/

/-- Accumulator bookkeeping of the track loop: transferred plus failed
grows by exactly the number of present entries walked over. -/
theorem runLoop_counts (fn : SearchFn) (env : Env) (l : List TrackEntry) :
    ∀ st : LoopSt,
      (runLoop fn env st l).transferred + ((runLoop fn env st l).failed).length =
        st.transferred + st.failed.length + l.countP (fun t => (t.track).isSome) := by
  induction l with
  | nil => intro st; simp [runLoop]
  | cons t ts ih =>
    intro st
    have hl : runLoop fn env st (t :: ts) = runLoop fn env (step fn env st t) ts := rfl
    rw [hl, ih]
    rcases ht : t.track with _ | info
    · simp [step, ht, List.countP_cons]
    · rcases hr : (fn env (searchQuery info)).1 with _ | v <;>
        simp [step, ht, hr, List.countP_cons] <;> omega

/-- The track loop walks the whole sequence: processing a concatenation is
processing the first part and then the rest from where it left off. -/
theorem runLoop_append (fn : SearchFn) (env : Env) (l₁ l₂ : List TrackEntry) :
    ∀ st : LoopSt,
      runLoop fn env st (l₁ ++ l₂) = runLoop fn env (runLoop fn env st l₁) l₂ := by
  induction l₁ with
  | nil => intro st; rfl
  | cons t ts ih => intro st; exact ih (step fn env st t)

/-- The pending-add list the loop accumulates is the matched ids in
original source order. -/
theorem runLoop_videoIds (fn : SearchFn) (env : Env) (l : List TrackEntry) :
    ∀ st : LoopSt,
      (runLoop fn env st l).videoIds = st.videoIds ++ matchedIds fn env l := by
  induction l with
  | nil => intro st; simp [runLoop, matchedIds]
  | cons t ts ih =>
    intro st
    have hl : runLoop fn env st (t :: ts) = runLoop fn env (step fn env st t) ts := rfl
    rw [hl, ih]
    rcases ht : t.track with _ | info
    · simp [step, ht, matchedIds, List.filterMap_cons]
    · rcases hr : (fn env (searchQuery info)).1 with _ | v <;>
        simp [step, ht, hr, matchedIds, List.filterMap_cons]

/-- Every slot is either present or absent, so the two counts add up to
the length of the fetched sequence. -/
theorem countP_present_absent (l : List TrackEntry) :
    l.countP (fun t => (t.track).isSome) + l.countP (fun t => (t.track).isNone) =
      l.length := by
  induction l with
  | nil => simp
  | cons t ts ih =>
    rcases ht : t.track with _ | info <;> simp [List.countP_cons, ht] <;> omega

/-- C3.  At every point during the track-processing loop of transfer,
transferredCount plus the length of failedTracks equals the number of
present-track entries processed so far; each present track goes to exactly
one of the two accumulators, and processing always continues over the
remaining tracks (a single NotFound never aborts the loop). -/
theorem C3_loop_invariant (fn : SearchFn) (env : Env) (tracks : List TrackEntry) :
    (∀ n : Nat,
      (runLoop fn env initSt (tracks.take n)).transferred +
        ((runLoop fn env initSt (tracks.take n)).failed).length =
        (tracks.take n).countP (fun t => (t.track).isSome)) ∧
    (∀ (st : LoopSt) (t : TrackEntry) (info : TrackInfo), t.track = some info →
      (step fn env st t).transferred + ((step fn env st t).failed).length =
        st.transferred + st.failed.length + 1 ∧
      (((step fn env st t).transferred = st.transferred + 1 ∧
          (step fn env st t).failed = st.failed) ∨
       ((step fn env st t).transferred = st.transferred ∧
          (step fn env st t).failed =
            st.failed ++ [⟨info.name, info.artists.map Artist.name⟩]))) ∧
    (∀ (st : LoopSt) (l₁ l₂ : List TrackEntry),
      runLoop fn env st (l₁ ++ l₂) = runLoop fn env (runLoop fn env st l₁) l₂) := by
  refine ⟨?_, ?_, ?_⟩
  · intro n
    have h := runLoop_counts fn env (tracks.take n) initSt
    simpa [initSt] using h
  · intro st t info ht
    rcases hr : (fn env (searchQuery info)).1 with _ | v
    · refine ⟨by simp [step, ht, hr]; omega, Or.inr ⟨by simp [step, ht, hr], by simp [step, ht, hr]⟩⟩
    · refine ⟨by simp [step, ht, hr]; omega, Or.inl ⟨by simp [step, ht, hr], by simp [step, ht, hr]⟩⟩
  · intro st l₁ l₂
    exact runLoop_append fn env l₁ l₂ st

/-- Witness for C3 at a concrete present track: the step sends the track
to exactly one accumulator and advances the processed count by one. -/
theorem C3_loop_invariant_witness :
    (step search_youtube_music baseEnv initSt trackNumb).transferred +
        ((step search_youtube_music baseEnv initSt trackNumb).failed).length =
      initSt.transferred + initSt.failed.length + 1 ∧
    (((step search_youtube_music baseEnv initSt trackNumb).transferred =
          initSt.transferred + 1 ∧
        (step search_youtube_music baseEnv initSt trackNumb).failed =
          initSt.failed) ∨
     ((step search_youtube_music baseEnv initSt trackNumb).transferred =
          initSt.transferred ∧
        (step search_youtube_music baseEnv initSt trackNumb).failed =
          initSt.failed ++ [⟨"Numb", ["Linkin Park"]⟩])) :=
  (C3_loop_invariant search_youtube_music baseEnv []).2.1 initSt trackNumb
    ⟨"Numb", [⟨"Linkin Park"⟩]⟩ rfl

/-- C1.  Evaluation at the failing input: with the catalog ranking a
result with id `v1` first (a non-empty result list), the matcher of
`neverpay2spotify.py` still yields no match and issues no catalog search —
its body reads the undefined name `ytm`, so the lookup raises `NameError`
before the client is reached and the handler returns `None`.  The copy in
`api/index.py` realises the claimed behaviour (one search, first result's
id) at the same input.  The flask copy behaves this way on every input. -/
theorem C1_flask_matcher_never_matches :
    search_youtube_music_flask envC1 "Numb Linkin Park" = (none, []) ∧
    envC1.search "Numb Linkin Park" = .ok [⟨some "v1"⟩] ∧
    search_youtube_music envC1 "Numb Linkin Park" =
      (some "v1", [Event.search "Numb Linkin Park"]) ∧
    (∀ (env : Env) (q : String), search_youtube_music_flask env q = (none, [])) :=
  ⟨rfl, rfl, rfl, fun _ _ => rfl⟩

/-- C2 (amended).  When both service handles construct successfully and no
id can be extracted from the locator, transfer returns the invalid-URL
error having made exactly the two handle constructions and nothing else:
no fetch, search, create or add call — but handle construction precedes
identifier extraction, not the other way round. -/
theorem C2_invalid_locator (fn : SearchFn) (fuel : Nat) (env : Env) (url : String)
    (h1 : env.initYTM = .ok ()) (h2 : env.initSpotify = .ok ())
    (h3 : extract_playlist_id_from_url url = none) :
    transfer_playlist fn fuel env url =
      ([Event.initYTM, Event.initSpotify],
        some (.error "Invalid Spotify playlist URL")) := by
  unfold transfer_playlist
  rw [h1, h2, h3]

/-- Witness for C2 at a concrete locator lacking the marker. -/
theorem C2_invalid_locator_witness :
    transfer_playlist search_youtube_music 0 baseEnv urlC2 =
      ([Event.initYTM, Event.initSpotify],
        some (.error "Invalid Spotify playlist URL")) :=
  C2_invalid_locator search_youtube_music 0 baseEnv urlC2 rfl rfl rfl

/-- Counterexample to C2 as stated: on a locator from which no id can be
extracted the transfer does return the invalid-locator error, but only
after both service-handle constructions have already been performed — the
trace is `[initYTM, initSpotify]`, not empty, so identifier extraction does
not precede construction of the service handles. -/
theorem C2_handles_constructed_before_extraction :
    (transfer_playlist search_youtube_music 0 baseEnv urlC2).2 =
      some (.error "Invalid Spotify playlist URL") ∧
    (transfer_playlist search_youtube_music 0 baseEnv urlC2).1 =
      [Event.initYTM, Event.initSpotify] ∧
    Event.initYTM ∈ (transfer_playlist search_youtube_music 0 baseEnv urlC2).1 :=
  ⟨rfl, rfl, by decide⟩

/-- C9.  Evaluation at the failing input: a one-track playlist whose track
the catalog matches.  The `api/index.py` copy transfers the track
(report: 1 of 1 transferred); the `neverpay2spotify.py` copy — whose
matcher reads an undefined name and therefore never matches — reports the
same track as failed (0 of 1 transferred).  The two copies of the engine
are not observably equivalent. -/
theorem C9_copies_not_equivalent :
    (transfer_playlist search_youtube_music 0 envC9 urlC9).2 =
      some (.report "Liked" 1 1 [] "PLNEW") ∧
    (transfer_playlist search_youtube_music_flask 0 envC9 urlC9).2 =
      some (.report "Liked" 1 0 [⟨"Numb", ["Linkin Park"]⟩] "PLNEW") ∧
    transfer_playlist search_youtube_music 0 envC9 urlC9 ≠
      transfer_playlist search_youtube_music_flask 0 envC9 urlC9 :=
  ⟨rfl, rfl, by decide⟩

/-- C4.  Every returned report satisfies: totalTracks is the length of the
full fetched track sequence, and equals transferredCount plus the number
of failed tracks plus the number of absent slots. -/
theorem C4_report_totals (fn : SearchFn) (fuel : Nat) (env : Env) (url : String)
    (pn : String) (total tc : Nat) (failed : List FailedTrack) (ytmId : String)
    (h : (transfer_playlist fn fuel env url).2 =
      some (.report pn total tc failed ytmId)) :
    ∃ (pid : String) (tracks : List TrackEntry),
      extract_playlist_id_from_url url = some pid ∧
      (fetch_all_tracks env pid fuel).2 = some (.ok tracks) ∧
      total = tracks.length ∧
      total = tc + failed.length + tracks.countP (fun t => (t.track).isNone) := by
  unfold transfer_playlist at h
  split at h
  next m h1 => simp at h
  next u h1 =>
  split at h
  next m h2 => simp at h
  next u2 h2 =>
  split at h
  next h3 => simp at h
  next pid h3 =>
  split at h
  next m h4 => simp at h
  next meta h4 =>
  split at h
  next fevs h5 => simp at h
  next fevs m h5 => simp at h
  next fevs tracks h5 =>
  refine ⟨pid, tracks, h3, by rw [h5], ?_⟩
  have hc := runLoop_counts fn env tracks initSt
  have hp := countP_present_absent tracks
  simp only [] at h
  split at h
  next m h6 => simp at h
  next newId h6 =>
  split at h
  next h7 =>
    simp only [Option.some.injEq, TResult.report.injEq] at h
    obtain ⟨hpn, htot, htc, hfail, hid⟩ := h
    rw [show initSt.transferred = 0 from rfl, show initSt.failed = [] from rfl] at hc
    simp only [List.length_nil, Nat.zero_add] at hc
    subst htot htc hfail
    omega
  next v vs h7 =>
  split at h
  next m h8 => simp at h
  next u3 h8 =>
  simp only [Option.some.injEq, TResult.report.injEq] at h
  obtain ⟨hpn, htot, htc, hfail, hid⟩ := h
  rw [show initSt.transferred = 0 from rfl, show initSt.failed = [] from rfl] at hc
  simp only [List.length_nil, Nat.zero_add] at hc
  subst htot htc hfail
  omega

/-- Witness for C4: a two-slot playlist (one present, never matched, and
one absent slot) yields a report with totalTracks 2, transferredCount 0
and one failed track. -/
theorem C4_report_totals_witness :
    ∃ (pid : String) (tracks : List TrackEntry),
      extract_playlist_id_from_url urlW4 = some pid ∧
      (fetch_all_tracks envW4 pid 0).2 = some (.ok tracks) ∧
      (2 : Nat) = tracks.length ∧
      (2 : Nat) = 0 + [(⟨"A", []⟩ : FailedTrack)].length +
        tracks.countP (fun t => (t.track).isNone) :=
  C4_report_totals search_youtube_music 0 envW4 urlW4 "P" 2 0 [⟨"A", []⟩] "" rfl

/-- The working matcher makes exactly one catalog search per call. -/
theorem search_youtube_music_events (env : Env) (q : String) :
    (search_youtube_music env q).2 = [Event.search q] := by
  unfold search_youtube_music
  cases env.search q with
  | error m => rfl
  | ok results => cases results with
    | nil => rfl
    | cons r rest => rfl

/-- The track loop only ever emits search events. -/
theorem runLoop_events_countP (env : Env) (p : Event → Bool)
    (hp : ∀ q, p (Event.search q) = false) (l : List TrackEntry) :
    ∀ st : LoopSt,
      ((runLoop search_youtube_music env st l).events).countP p =
        (st.events).countP p := by
  induction l with
  | nil => intro st; rfl
  | cons t ts ih =>
    intro st
    have hl : runLoop search_youtube_music env st (t :: ts) =
        runLoop search_youtube_music env (step search_youtube_music env st t) ts := rfl
    rw [hl, ih]
    rcases ht : t.track with _ | info
    · simp [step, ht]
    · have he : (search_youtube_music env (searchQuery info)).2 =
          [Event.search (searchQuery info)] :=
        search_youtube_music_events env (searchQuery info)
      rcases hr : (search_youtube_music env (searchQuery info)).1 with _ | v <;>
        simp [step, ht, hr, he, List.countP_append, List.countP_cons, hp]

/-- The pagination loop only ever emits page-fetch events. -/
theorem fetchLoop_events_countP (env : Env) (pid : String) (p : Event → Bool)
    (hp : ∀ id off, p (Event.getTracks id off) = false) :
    ∀ (fuel : Nat) (tracks : List TrackEntry) (b : Bool),
      ((fetchLoop env pid fuel tracks b).1).countP p = 0 := by
  intro fuel
  induction fuel with
  | zero =>
    intro tracks b
    cases b
    · rfl
    · rfl
  | succ f ih =>
    intro tracks b
    cases b
    · rfl
    · unfold fetchLoop
      cases hpage : env.playlist_tracks pid tracks.length with
      | error m => simp [List.countP_cons, hp]
      | ok page => simp [List.countP_cons, hp, ih]

/-- The whole track fetch only ever emits page-fetch events. -/
theorem fetch_all_tracks_events_countP (env : Env) (pid : String) (fuel : Nat)
    (p : Event → Bool) (hp : ∀ id off, p (Event.getTracks id off) = false) :
    ((fetch_all_tracks env pid fuel).1).countP p = 0 := by
  unfold fetch_all_tracks
  cases h0 : env.playlist_tracks pid 0 with
  | error m => simp [List.countP_cons, hp]
  | ok page0 => simp [List.countP_cons, hp, fetchLoop_events_countP env pid p hp]

/-- C6.  After a successful source fetch, the createPlaylist call is made
exactly once — whatever the matcher finds and even when the creation or
the later batch add fails — and the batch addItems call is made exactly
once, carrying the matched destination ids in original source order, when
the pending-add list is non-empty, and never when it is empty. -/
theorem C6_create_once_add_conditional (fuel : Nat) (env : Env) (url pid : String)
    (meta : PlaylistMeta) (fevs : List Event) (tracks : List TrackEntry)
    (h1 : env.initYTM = .ok ()) (h2 : env.initSpotify = .ok ())
    (h3 : extract_playlist_id_from_url url = some pid)
    (h4 : env.playlist pid = .ok meta)
    (h5 : fetch_all_tracks env pid fuel = (fevs, some (.ok tracks))) :
    ((transfer_playlist search_youtube_music fuel env url).1).countP Event.isCreate = 1 ∧
    (matchedIds search_youtube_music env tracks = [] →
      ((transfer_playlist search_youtube_music fuel env url).1).countP Event.isAdd = 0) ∧
    (∀ ytmId : String,
      env.create_playlist meta.name
          ("Transferred from Spotify playlist: " ++ meta.name) = .ok ytmId →
      matchedIds search_youtube_music env tracks ≠ [] →
      ((transfer_playlist search_youtube_music fuel env url).1).countP Event.isAdd = 1 ∧
      Event.addItems ytmId (matchedIds search_youtube_music env tracks) ∈
        (transfer_playlist search_youtube_music fuel env url).1) := by
  have hv : (runLoop search_youtube_music env initSt tracks).videoIds =
      matchedIds search_youtube_music env tracks := by
    have hx := runLoop_videoIds search_youtube_music env tracks initSt
    rw [show initSt.videoIds = [] from rfl] at hx
    simpa using hx
  have hfC : fevs.countP Event.isCreate = 0 := by
    have hx := fetch_all_tracks_events_countP env pid fuel Event.isCreate (fun _ _ => rfl)
    rw [h5] at hx
    exact hx
  have hfA : fevs.countP Event.isAdd = 0 := by
    have hx := fetch_all_tracks_events_countP env pid fuel Event.isAdd (fun _ _ => rfl)
    rw [h5] at hx
    exact hx
  have hsC : ((runLoop search_youtube_music env initSt tracks).events).countP
      Event.isCreate = 0 := by
    have hx := runLoop_events_countP env Event.isCreate (fun _ => rfl) tracks initSt
    rw [show initSt.events = [] from rfl] at hx
    simpa using hx
  have hsA : ((runLoop search_youtube_music env initSt tracks).events).countP
      Event.isAdd = 0 := by
    have hx := runLoop_events_countP env Event.isAdd (fun _ => rfl) tracks initSt
    rw [show initSt.events = [] from rfl] at hx
    simpa using hx
  refine ⟨?_, ?_, ?_⟩
  · cases h6 : env.create_playlist meta.name
        ("Transferred from Spotify playlist: " ++ meta.name) with
    | error m =>
      simp only [transfer_playlist, h1, h2, h3, h4, h5, h6]
      simp [List.countP_append, List.countP_cons, Event.isCreate, hfC]
    | ok newId =>
      cases h7 : (runLoop search_youtube_music env initSt tracks).videoIds with
      | nil =>
        simp only [transfer_playlist, h1, h2, h3, h4, h5, h6, h7]
        simp [List.countP_append, List.countP_cons, Event.isCreate, hfC, hsC]
      | cons v vs =>
        cases h8 : env.add_playlist_items newId (v :: vs) with
        | error m =>
          simp only [transfer_playlist, h1, h2, h3, h4, h5, h6, h7, h8]
          simp [List.countP_append, List.countP_cons, Event.isCreate, hfC, hsC]
        | ok u3 =>
          simp only [transfer_playlist, h1, h2, h3, h4, h5, h6, h7, h8]
          simp [List.countP_append, List.countP_cons, Event.isCreate, hfC, hsC]
  · intro hm
    have h7 : (runLoop search_youtube_music env initSt tracks).videoIds = [] := by
      rw [hv, hm]
    cases h6 : env.create_playlist meta.name
        ("Transferred from Spotify playlist: " ++ meta.name) with
    | error m =>
      simp only [transfer_playlist, h1, h2, h3, h4, h5, h6]
      simp [List.countP_append, List.countP_cons, Event.isAdd, hfA]
    | ok newId =>
      simp only [transfer_playlist, h1, h2, h3, h4, h5, h6, h7]
      simp [List.countP_append, List.countP_cons, Event.isAdd, hfA, hsA]
  · intro ytmId h6 hne
    rcases hmv : matchedIds search_youtube_music env tracks with _ | ⟨v, vs⟩
    · exact absurd hmv hne
    have h7 : (runLoop search_youtube_music env initSt tracks).videoIds = v :: vs := by
      rw [hv, hmv]
    cases h8 : env.add_playlist_items ytmId (v :: vs) with
    | error m =>
      constructor
      · simp only [transfer_playlist, h1, h2, h3, h4, h5, h6, h7, h8]
        simp [List.countP_append, List.countP_cons, Event.isAdd, hfA, hsA]
      · simp only [transfer_playlist, h1, h2, h3, h4, h5, h6, h7, h8, hmv]
        simp [List.mem_append]
    | ok u3 =>
      constructor
      · simp only [transfer_playlist, h1, h2, h3, h4, h5, h6, h7, h8]
        simp [List.countP_append, List.countP_cons, Event.isAdd, hfA, hsA]
      · simp only [transfer_playlist, h1, h2, h3, h4, h5, h6, h7, h8, hmv]
        simp [List.mem_append]

/-- Witness for C6: a one-track playlist whose track is matched; the trace
holds exactly one createPlaylist call and exactly one addItems call
carrying the matched id. -/
theorem C6_create_once_add_conditional_witness :
    ((transfer_playlist search_youtube_music 0 envW6 urlW6).1).countP Event.isCreate = 1 ∧
    ((transfer_playlist search_youtube_music 0 envW6 urlW6).1).countP Event.isAdd = 1 ∧
    Event.addItems "Y1" (matchedIds search_youtube_music envW6 tracksW6) ∈
      (transfer_playlist search_youtube_music 0 envW6 urlW6).1 := by
  have h := C6_create_once_add_conditional 0 envW6 urlW6 "Z9" ⟨"P"⟩
      [Event.getTracks "Z9" 0] tracksW6 rfl rfl rfl rfl rfl
  have h3 := h.2.2 "Y1" rfl (by decide)
  exact ⟨h.1, h3.1, h3.2⟩

/-- C8.  Every terminating invocation of transfer returns exactly one of
two mutually exclusive results — a full report or a single labelled error —
and the error carries the underlying provider message: shown here for a
failing destination-handle construction, a failing source-handle
construction, and a failing first page fetch. -/
theorem C8_result_dichotomy (fn : SearchFn) (fuel : Nat) (env : Env) (url : String) :
    (∀ r : TResult, (transfer_playlist fn fuel env url).2 = some r →
      (∃ pn total tc failed ytmId, r = .report pn total tc failed ytmId) ∨
      (∃ m, r = .error m)) ∧
    (∀ (pn : String) (total tc : Nat) (failed : List FailedTrack) (ytmId m : String),
      (TResult.report pn total tc failed ytmId : TResult) ≠ TResult.error m) ∧
    (∀ m : String, env.initYTM = .error m →
      (transfer_playlist fn fuel env url).2 = some (.error m)) ∧
    (∀ m : String, env.initYTM = .ok () → env.initSpotify = .error m →
      (transfer_playlist fn fuel env url).2 = some (.error m)) ∧
    (∀ (m pid : String) (meta : PlaylistMeta),
      env.initYTM = .ok () → env.initSpotify = .ok () →
      extract_playlist_id_from_url url = some pid →
      env.playlist pid = .ok meta →
      env.playlist_tracks pid 0 = .error m →
      (transfer_playlist fn fuel env url).2 = some (.error m)) := by
  refine ⟨?_, ?_, ?_, ?_, ?_⟩
  · intro r hr
    cases r with
    | report pn total tc failed ytmId => exact Or.inl ⟨pn, total, tc, failed, ytmId, rfl⟩
    | error m => exact Or.inr ⟨m, rfl⟩
  · intro pn total tc failed ytmId m h
    exact TResult.noConfusion h
  · intro m hm
    simp [transfer_playlist, hm]
  · intro m h1 hm
    simp [transfer_playlist, h1, hm]
  · intro m pid meta h1 h2 h3 h4 h5
    simp [transfer_playlist, fetch_all_tracks, h1, h2, h3, h4, h5]

/-- Witness for C8: a destination client whose construction fails with
message boom makes the transfer return exactly that labelled error. -/
theorem C8_result_dichotomy_witness :
    (transfer_playlist search_youtube_music 0 envW8 "u").2 = some (.error "boom") :=
  (C8_result_dichotomy search_youtube_music 0 envW8 "u").2.2.1 "boom" rfl

/-- C10.  When the catalog search succeeds with a non-empty result list
whose first result lacks an id field, the matcher yields NotFound (no
Found with an empty id is produced), and the track-loop step records the
track in failedTracks, leaving the transferred count and the pending-add
list unchanged. -/
theorem C10_missing_id_is_notfound (env : Env) (q : String) (r : SearchResult)
    (rest : List SearchResult) (hs : env.search q = .ok (r :: rest))
    (hid : r.videoId = none) :
    search_youtube_music env q = (none, [Event.search q]) ∧
    (∀ (st : LoopSt) (t : TrackEntry) (info : TrackInfo),
      t.track = some info → searchQuery info = q →
      step search_youtube_music env st t =
        ⟨st.transferred, st.failed ++ [⟨info.name, info.artists.map Artist.name⟩],
          st.videoIds, st.events ++ [Event.search q]⟩) := by
  have h1 : search_youtube_music env q = (none, [Event.search q]) := by
    simp [search_youtube_music, hs, hid]
  refine ⟨h1, ?_⟩
  intro st t info ht hq
  simp [step, ht, hq, h1]

/-- Witness for C10 at a concrete catalog returning one id-less result. -/
theorem C10_missing_id_is_notfound_witness :
    search_youtube_music envW10 (searchQuery ⟨"A", []⟩) =
      (none, [Event.search (searchQuery ⟨"A", []⟩)]) ∧
    step search_youtube_music envW10 initSt ⟨some ⟨"A", []⟩⟩ =
      ⟨0, [⟨"A", []⟩], [], [Event.search (searchQuery ⟨"A", []⟩)]⟩ := by
  have h := C10_missing_id_is_notfound envW10 (searchQuery ⟨"A", []⟩) ⟨none⟩ [] rfl rfl
  exact ⟨h.1, h.2 initSt ⟨some ⟨"A", []⟩⟩ ⟨"A", []⟩ rfl rfl⟩

/-- Unfolding of one successful iteration of the pagination loop. -/
theorem fetchLoop_succ_ok (env : Env) (pid : String) (f : Nat)
    (tracks : List TrackEntry) (page : Page)
    (h : env.playlist_tracks pid tracks.length = .ok page) :
    fetchLoop env pid (f + 1) tracks true =
      (Event.getTracks pid tracks.length ::
          (fetchLoop env pid f (tracks ++ page.items) page.next).1,
        (fetchLoop env pid f (tracks ++ page.items) page.next).2) := by
  rw [show fetchLoop env pid (f + 1) tracks true =
      (match env.playlist_tracks pid tracks.length with
       | .error m => ([Event.getTracks pid tracks.length], some (.error m))
       | .ok page =>
         (Event.getTracks pid tracks.length ::
             (fetchLoop env pid f (tracks ++ page.items) page.next).1,
           (fetchLoop env pid f (tracks ++ page.items) page.next).2))
    from rfl, h]

/-- Appending page k to the pages before it gives the pages before k+1. -/
theorem pagesBefore_succ (pages : List (List TrackEntry)) (k : Nat)
    (hk : k < pages.length) :
    pagesBefore pages k ++ pages.get ⟨k, hk⟩ = pagesBefore pages (k + 1) := by
  unfold pagesBefore
  rw [List.take_succ, List.getElem?_eq_getElem hk, List.flatten_append]
  simp

/-- The pagination loop, started after page 0 with k pages consumed,
drains the remaining pages: each request is at an offset equal to the
number of tracks already retrieved, and the result is the concatenation of
all pages. -/
theorem fetchLoop_pages (env : Env) (pid : String)
    (pages : List (List TrackEntry))
    (henv : ∀ (k : Nat) (hk : k < pages.length),
      env.playlist_tracks pid (pagesBefore pages k).length =
        .ok ⟨pages.get ⟨k, hk⟩, decide (k + 1 < pages.length)⟩) :
    ∀ (fuel k : Nat), k ≤ pages.length → pages.length - k ≤ fuel →
      fetchLoop env pid fuel (pagesBefore pages k) (decide (k < pages.length)) =
        (((List.range (pages.length - k)).map
            fun i => Event.getTracks pid (pagesBefore pages (k + i)).length),
          some (.ok pages.flatten)) := by
  intro fuel
  induction fuel with
  | zero =>
    intro k hk hf
    have hk2 : k = pages.length := by omega
    subst hk2
    have hd : decide (pages.length < pages.length) = false := by simp
    rw [hd, show fetchLoop env pid 0 (pagesBefore pages pages.length) false =
      ([], some (.ok (pagesBefore pages pages.length))) from rfl]
    simp [pagesBefore, List.take_length, Nat.sub_self]
  | succ f ih =>
    intro k hk hf
    by_cases hlt : k < pages.length
    · have hd : decide (k < pages.length) = true := by simpa using hlt
      rw [hd, fetchLoop_succ_ok env pid f _ _ (henv k hlt)]
      have hacc := pagesBefore_succ pages k hlt
      rw [show (⟨pages.get ⟨k, hlt⟩, decide (k + 1 < pages.length)⟩ : Page).items =
          pages.get ⟨k, hlt⟩ from rfl,
        show (⟨pages.get ⟨k, hlt⟩, decide (k + 1 < pages.length)⟩ : Page).next =
          decide (k + 1 < pages.length) from rfl,
        hacc, ih (k + 1) (by omega) (by omega)]
      refine Prod.ext ?_ rfl
      have h1 : pages.length - k = (pages.length - (k + 1)) + 1 := by omega
      rw [h1, List.range_succ_eq_map, List.map_cons, List.map_map]
      refine congrArg₂ List.cons (by simp) ?_
      refine List.map_congr_left ?_
      intro a _
      have : k + (a + 1) = k + 1 + a := by omega
      simp [Function.comp, this]
    · have hk2 : k = pages.length := by omega
      subst hk2
      have hd : decide (pages.length < pages.length) = false := by simp
      rw [hd, show fetchLoop env pid (f + 1) (pagesBefore pages pages.length) false =
        ([], some (.ok (pagesBefore pages pages.length))) from rfl]
      simp [pagesBefore, List.take_length, Nat.sub_self]

/-- C5.  The paginated fetch requests each page at an offset equal to the
number of tracks already retrieved, appends each page in order, and loops
while the service reports a next-page cursor: for any finite page sequence
served at cumulative offsets the aggregated track list is the
concatenation of all pages in page-then-in-page order, duplicates
preserved. -/
theorem C5_pagination (env : Env) (pid : String) (fuel : Nat)
    (pages : List (List TrackEntry)) (hne : pages ≠ [])
    (hfuel : pages.length ≤ fuel + 1)
    (henv : ∀ (k : Nat) (hk : k < pages.length),
      env.playlist_tracks pid (pagesBefore pages k).length =
        .ok ⟨pages.get ⟨k, hk⟩, decide (k + 1 < pages.length)⟩) :
    fetch_all_tracks env pid fuel =
      (((List.range pages.length).map
          fun k => Event.getTracks pid (pagesBefore pages k).length),
        some (.ok pages.flatten)) := by
  obtain ⟨p0, rest, rfl⟩ : ∃ p0 rest, pages = p0 :: rest := by
    cases pages with
    | nil => exact absurd rfl hne
    | cons a b => exact ⟨a, b, rfl⟩
  have h0 := henv 0 (by simp)
  have h0x : env.playlist_tracks pid 0 =
      .ok ⟨p0, decide (0 + 1 < (p0 :: rest).length)⟩ := by
    simpa [pagesBefore] using h0
  unfold fetch_all_tracks
  rw [h0x]
  have hb1 : pagesBefore (p0 :: rest) 1 = p0 := by
    simp [pagesBefore]
  have hmain := fetchLoop_pages env pid (p0 :: rest) henv fuel 1 (by simp)
    (by simp only [List.length_cons] at hfuel ⊢; omega)
  rw [hb1] at hmain
  show (Event.getTracks pid 0 ::
      (fetchLoop env pid fuel p0 (decide (1 < (p0 :: rest).length))).1,
    (fetchLoop env pid fuel p0 (decide (1 < (p0 :: rest).length))).2) = _
  rw [hmain]
  refine Prod.ext ?_ rfl
  rw [show (p0 :: rest).length = rest.length + 1 from rfl,
    List.range_succ_eq_map, List.map_cons, List.map_map,
    show (rest.length + 1) - 1 = rest.length from rfl]
  refine congrArg₂ List.cons (by simp [pagesBefore]) ?_
  refine List.map_congr_left ?_
  intro a _
  have : a + 1 = 1 + a := by omega
  simp [Function.comp, this]


set_option maxRecDepth 8000 in
/-- Witness for C5: three stubbed pages of 100, 100 and 37 items with
next-page cursors true, true, false are fetched at offsets 0, 100 and 200
and aggregate to the 237-item concatenation. -/
theorem C5_pagination_witness :
    fetch_all_tracks env237 "pl" 2 =
      ([Event.getTracks "pl" 0, Event.getTracks "pl" 100, Event.getTracks "pl" 200],
        some (.ok pages237.flatten)) ∧
    pages237.flatten.length = 237 := by
  constructor
  · have h := C5_pagination env237 "pl" 2 pages237 (by decide) (by decide)
      (by
        intro k hk
        have hk3 : k < 3 := hk
        interval_cases k <;> rfl)
    rw [h]
    rfl
  · rfl

/-- The captured run consists of alphanumerics only. -/
theorem takeAlnum_all (l : List Char) : (takeAlnum l).all isAlnumC = true := by
  induction l with
  | nil => rfl
  | cons c t ih =>
    by_cases hc : isAlnumC c
    · simp [takeAlnum, hc, ih]
    · simp [takeAlnum, hc]

/-- A list splits into its maximal leading alphanumeric run and a
remainder that does not start with an alphanumeric. -/
theorem takeAlnum_decomp (l : List Char) :
    ∃ post, l = takeAlnum l ++ post ∧
      ∀ d p', post = d :: p' → isAlnumC d = false := by
  induction l with
  | nil => exact ⟨[], rfl, by intro d p' h; cases h⟩
  | cons c t ih =>
    by_cases hc : isAlnumC c
    · obtain ⟨post, heq, hpost⟩ := ih
      refine ⟨post, ?_, hpost⟩
      rw [takeAlnum, if_pos hc, List.cons_append, ← heq]
    · refine ⟨c :: t, ?_, ?_⟩
      · rw [takeAlnum, if_neg hc, List.nil_append]
      · intro d p' h
        cases h
        simpa using hc

/-- Calculational form of the can-match-here test: the keyword occurs and
the greedy capture after it is non-empty. -/
theorem matchBeginsB_eq (s : List Char) (j : Nat) :
    matchBeginsB s j =
      (markerPat.isPrefixOf (s.drop j) &&
        !((takeAlnum ((s.drop j).drop markerPat.length)).isEmpty)) := by
  unfold matchBeginsB
  cases hr : (s.drop j).drop markerPat.length with
  | nil => simp [takeAlnum]
  | cons d r' =>
    by_cases hd : isAlnumC d <;> simp [takeAlnum, hd]

/-- Shifting the can-match-here test across a leading character. -/
theorem matchBeginsB_cons_succ (c : Char) (t : List Char) (j : Nat) :
    matchBeginsB (c :: t) (j + 1) = matchBeginsB t j := rfl

/-- A decomposition witnessing a capture makes the can-match-here test
succeed at the start of the keyword. -/
theorem matchBeginsB_true_at (pre cap post : List Char) (hcap : cap ≠ [])
    (hall : cap.all isAlnumC = true) :
    matchBeginsB (pre ++ markerPat ++ cap ++ post) pre.length = true := by
  obtain ⟨d, cap', rfl⟩ := List.exists_cons_of_ne_nil hcap
  have hdrop : (pre ++ markerPat ++ (d :: cap') ++ post).drop pre.length =
      markerPat ++ ((d :: cap') ++ post) := by
    rw [List.append_assoc, List.append_assoc, List.drop_left, ← List.append_assoc]
  rw [matchBeginsB_eq, hdrop]
  have hp : markerPat.isPrefixOf (markerPat ++ ((d :: cap') ++ post)) = true := by
    simp
  have hd : isAlnumC d = true := by
    simp [List.all_cons] at hall
    exact hall.1
  rw [hp, List.drop_left]
  simp [takeAlnum, hd]

/-- Soundness of the leftmost-match scan: a returned capture is a
non-empty all-alphanumeric segment that directly follows the keyword,
stops before the first non-alphanumeric character, and no earlier position
admits a match. -/
theorem reSearch_sound :
    ∀ (s cap : List Char), reSearchPlaylist s = some cap →
      ∃ pre post, s = pre ++ markerPat ++ cap ++ post ∧ cap ≠ [] ∧
        cap.all isAlnumC = true ∧
        (∀ d p', post = d :: p' → isAlnumC d = false) ∧
        (∀ j, j < pre.length → matchBeginsB s j = false) := by
  intro s
  induction s with
  | nil => intro cap h; simp [reSearchPlaylist] at h
  | cons c t ih =>
    intro cap h
    rw [reSearchPlaylist] at h
    by_cases h1 : markerPat.isPrefixOf (c :: t)
    · rw [if_pos h1] at h
      cases h2 : takeAlnum ((c :: t).drop markerPat.length) with
      | nil =>
        rw [h2] at h
        obtain ⟨pre, post, heq, hcap, hall, hpost, hleft⟩ := ih cap h
        refine ⟨c :: pre, post, ?_, hcap, hall, hpost, ?_⟩
        · rw [List.cons_append, List.cons_append, List.cons_append, ← heq]
        · intro j hj
          cases j with
          | zero =>
            rw [matchBeginsB_eq]
            simp only [List.drop_zero]
            rw [h2]
            simp
          | succ j =>
            rw [matchBeginsB_cons_succ]
            exact hleft j (by simpa using hj)
      | cons d cap' =>
        rw [h2] at h
        obtain rfl : d :: cap' = cap := by simpa using h
        obtain ⟨r, hr⟩ := (List.isPrefixOf_iff_prefix.mp h1)
        have hdr : (c :: t).drop markerPat.length = r := by
          rw [← hr, List.drop_left]
        obtain ⟨post, hrdec, hpost⟩ := takeAlnum_decomp r
        rw [hdr] at h2
        refine ⟨[], post, ?_, by simp, ?_, hpost, by intro j hj; simp at hj⟩
        · rw [List.nil_append, ← hr, hrdec, h2, List.append_assoc]
        · rw [← h2]
          exact takeAlnum_all r
    · rw [if_neg h1] at h
      obtain ⟨pre, post, heq, hcap, hall, hpost, hleft⟩ := ih cap h
      refine ⟨c :: pre, post, ?_, hcap, hall, hpost, ?_⟩
      · rw [List.cons_append, List.cons_append, List.cons_append, ← heq]
      · intro j hj
        cases j with
        | zero =>
          rw [matchBeginsB_eq]
          simp only [List.drop_zero]
          simp [h1]
        | succ j =>
          rw [matchBeginsB_cons_succ]
          exact hleft j (by simpa using hj)

/-- Completeness of the leftmost-match scan: when it returns nothing, no
position of the string admits a match. -/
theorem reSearch_none :
    ∀ s : List Char, reSearchPlaylist s = none → ∀ j, matchBeginsB s j = false := by
  intro s
  induction s with
  | nil =>
    intro _ j
    rw [matchBeginsB_eq, List.drop_nil]
    decide
  | cons c t ih =>
    intro h j
    rw [reSearchPlaylist] at h
    by_cases h1 : markerPat.isPrefixOf (c :: t)
    · rw [if_pos h1] at h
      cases h2 : takeAlnum ((c :: t).drop markerPat.length) with
      | nil =>
        rw [h2] at h
        cases j with
        | zero =>
          rw [matchBeginsB_eq]
          simp only [List.drop_zero]
          rw [h2]
          simp
        | succ j =>
          rw [matchBeginsB_cons_succ]
          exact ih h j
      | cons d cap' =>
        rw [h2] at h
        simp at h
    · rw [if_neg h1] at h
      cases j with
      | zero =>
        rw [matchBeginsB_eq]
        simp only [List.drop_zero]
        simp [h1]
      | succ j =>
        rw [matchBeginsB_cons_succ]
        exact ih h j


/-- C7.  Characterisation of the identifier extractor: without the marker
extraction fails; a returned id is the literal maximal alphanumeric
segment following the leftmost matchable occurrence of the path keyword
(stopping before any non-alphanumeric character); with the marker but no
matchable position extraction fails; and with the marker and some
matchable position extraction succeeds. -/
theorem C7_extract_characterisation (url : String) :
    (containsSub url.data markerFull = false →
      extract_playlist_id_from_url url = none) ∧
    (∀ id : String, extract_playlist_id_from_url url = some id →
      ∃ pre post, url.data = pre ++ markerPat ++ id.data ++ post ∧
        id.data ≠ [] ∧ id.data.all isAlnumC = true ∧
        (∀ d p', post = d :: p' → isAlnumC d = false) ∧
        (∀ j, j < pre.length → matchBeginsB url.data j = false) ∧
        matchBeginsB url.data pre.length = true) ∧
    (containsSub url.data markerFull = true →
      (∀ j, matchBeginsB url.data j = false) →
      extract_playlist_id_from_url url = none) ∧
    (containsSub url.data markerFull = true →
      ∀ j, matchBeginsB url.data j = true →
      ∃ id, extract_playlist_id_from_url url = some id) := by
  refine ⟨?_, ?_, ?_, ?_⟩
  · intro hc
    simp [extract_playlist_id_from_url, hc]
  · intro id h
    unfold extract_playlist_id_from_url at h
    by_cases hc : containsSub url.data markerFull
    · rw [if_pos hc] at h
      cases hr : reSearchPlaylist url.data with
      | none => rw [hr] at h; simp at h
      | some cap =>
        rw [hr] at h
        obtain rfl : String.mk cap = id := by simpa using h
        obtain ⟨pre, post, heq, hcap, hall, hpost, hleft⟩ :=
          reSearch_sound url.data cap hr
        refine ⟨pre, post, heq, hcap, hall, hpost, hleft, ?_⟩
        rw [heq]
        exact matchBeginsB_true_at pre cap post hcap hall
    · rw [if_neg hc] at h
      simp at h
  · intro hc hnone
    unfold extract_playlist_id_from_url
    rw [if_pos hc]
    cases hr : reSearchPlaylist url.data with
    | none => rfl
    | some cap =>
      obtain ⟨pre, post, heq, hcap, hall, _, _⟩ := reSearch_sound url.data cap hr
      have hb := matchBeginsB_true_at pre cap post hcap hall
      rw [← heq] at hb
      rw [hnone pre.length] at hb
      exact Bool.noConfusion hb
  · intro hc j hj
    cases hr : reSearchPlaylist url.data with
    | some cap =>
      exact ⟨String.mk cap, by simp [extract_playlist_id_from_url, hc, hr]⟩
    | none =>
      have hb := reSearch_none url.data hr j
      rw [hj] at hb
      exact Bool.noConfusion hb

/-- Witness for C7 at a locator lacking the marker. -/
theorem C7_extract_characterisation_witness :
    extract_playlist_id_from_url urlC2 = none :=
  (C7_extract_characterisation urlC2).1 (by decide)

end NeverPay
